import Mathlib

/-!
Shallow embedding of the user-identity reconciliation and CRUD boundary of
the `what_to_cook` backend: src/app/user/schema.py, src/app/user/user.py,
src/app/user/model.py and src/app/auth/auth.py.

The identity provider and the database are external collaborators: the
database is modelled as an explicit state (a list of rows plus an
autoincrement counter), the identity provider's token resolution as a
function parameter. Python exceptions are modelled with `Except`; each
route handler's `try`/`except` block appears as an explicit catch that
rewraps the inner error, exactly as in the source.
-/

/-- A value inside a JSON-like response dictionary: a string or a boolean. -/
inductive Val where
  | s (v : String)
  | b (v : Bool)
deriving DecidableEq, Repr

/-- A Python dict used as an HTTP response body, as an ordered association
list of keys and values. -/
abbrev Response := List (String × Val)

/-- The Python exceptions this code base can raise: FastAPI `HTTPException`
(status code and detail), `IndexError` from an out-of-range `[0]`, and the
two Prisma persistence errors (unique-constraint violation on create,
record-not-found on update/delete of a missing row). -/
inductive Exc where
  | httpExc (status : Nat) (detail : String)
  | indexError
  | typeError
  | uniqueViolation
  | recordNotFound
deriving DecidableEq, Repr

/-- `str(e)` for the exceptions above. Starlette's `HTTPException.__str__`
yields `"<status>: <detail>"`; `str(IndexError(...))` is
`"list index out of range"`; `typeError` is the `TypeError` raised by
subscripting a pydantic Prisma row (its `str` names the row class, here
kept to the class-independent tail of the message); the Prisma errors keep
their leading message text. -/
def Exc.pyStr : Exc → String
  | .httpExc status detail => toString status ++ ": " ++ detail
  | .indexError => "list index out of range"
  | .typeError => "object is not subscriptable"
  | .uniqueViolation => "Unique constraint failed on the fields"
  | .recordNotFound =>
      "An operation failed because it depends on one or more records that were required but not found"

/-- A persisted User row. The Prisma schema file is not under src; per the
spec's data model (§3) a row carries an internal identifier assigned by the
persistence layer, the external identity id `uid`, `email`, `first_name`,
and an `is_admin` flag that defaults to false. -/
structure UserRecord where
  id : Nat
  uid : String
  email : String
  first_name : String
  is_admin : Bool
deriving DecidableEq, Repr

/-- Database state: the autoincrement counter for internal ids and the
stored rows. -/
structure DBState where
  nextId : Nat
  rows : List UserRecord
deriving DecidableEq, Repr

/-- src/app/user/schema.py, `individual_serial`: serialize one persisted
user into the public response shape. The source subscripts the
persisted-record mapping with keys `"_id"` and `"_uid"` for the internal
identifier and the external id — here the `id` and `uid` fields of
`UserRecord` — and coerces both through `str`. -/
def individual_serial (user : UserRecord) : Response :=
  [("id", .s (toString user.id)),
   ("uid", .s user.uid),
   ("first_name", .s user.first_name),
   ("email", .s user.email),
   ("is_admin", .b user.is_admin)]

/-- src/app/user/schema.py, `list_serial`: serialize a list of users, one
`individual_serial` per element (a Python list comprehension). -/
def list_serial (users : List UserRecord) : List Response :=
  users.map individual_serial

/-- Calling `individual_serial` on a row returned by prisma-client-py, as
the user.py handlers do: the function's very first subscript,
`user["_id"]`, raises `TypeError` because the pydantic row object is not
subscriptable (its data sits in attributes `id`/`uid`/..., as
`create_user`'s `new_user.id` and `delete_user`'s `deleted_user.uid`
show), so for every row the call raises instead of returning. -/
def serialize_prisma_row (_user : UserRecord) : Except Exc Response :=
  .error .typeError

/-- Calling `list_serial` on the rows `prisma.user.find_many` returns: the
comprehension evaluates `individual_serial` element by element, so the
empty list yields the empty list and a first row raises its
`TypeError`. -/
def list_serial_prisma (users : List UserRecord) :
    Except Exc (List Response) :=
  match users with
  | [] => .ok []
  | u :: us =>
      match serialize_prisma_row u with
      | .error e => .error e
      | .ok r =>
          match list_serial_prisma us with
          | .error e => .error e
          | .ok rs => .ok (r :: rs)

/-- src/app/user/model.py, `UserModel`: the body of the PUT endpoint. -/
structure UserModel where
  uid : String
  first_name : String
  email : String
  is_admin : Bool
deriving DecidableEq, Repr

/-- Modelled from the spec: `prisma.user.create`. The Prisma schema file is
absent from src; per §3 and §4.2 `email` and the external id are unique
(the conflict is "enforced by the persistence layer") and `is_admin`
defaults to false. On success the new row is appended and the counter
advances. -/
def dbCreate (st : DBState) (uid email first_name : String) :
    Except Exc (UserRecord × DBState) :=
  if st.rows.any (fun r => r.uid = uid || r.email = email) then
    .error .uniqueViolation
  else
    let new_user : UserRecord :=
      { id := st.nextId, uid := uid, email := email,
        first_name := first_name, is_admin := false }
    .ok (new_user, ⟨st.nextId + 1, st.rows ++ [new_user]⟩)

/-- `prisma.user.find_unique(where={"uid": user_id})`: first (unique) row
whose `uid` matches. -/
def find_unique (st : DBState) (user_id : String) : Option UserRecord :=
  st.rows.find? (fun r => r.uid = user_id)

/-- src/app/user/user.py lines 37-62, `create_user`: insert a row through
Prisma and return `{id (stringified), uid, email, first_name}`; any
persistence failure (e.g. duplicate email) is caught and rewrapped as
`HTTPException(400, str(e))`. -/
def create_user (st : DBState) (auth_id email first_name : String) :
    Except Exc (Response × DBState) :=
  match dbCreate st auth_id email first_name with
  | .error e => .error (.httpExc 400 e.pyStr)
  | .ok (new_user, st') =>
      .ok ([("id", .s (toString new_user.id)),
            ("uid", .s new_user.uid),
            ("email", .s new_user.email),
            ("first_name", .s new_user.first_name)], st')

/-- src/app/user/user.py lines 82-100, `get_user`: look the row up by uid.
A missing row raises `HTTPException(404, "User not found")` inside the
`try` block; a found row reaches `individual_serial(user)`, which raises
`TypeError` on the Prisma row. Either way the handler's own
`except Exception` clause catches the exception and rewraps it as
`HTTPException(400, str(e))` — the ok branch of the catch is
unreachable. -/
def get_user (st : DBState) (user_id : String) : Except Exc Response :=
  let inner : Except Exc Response :=
    match find_unique st user_id with
    | none => .error (.httpExc 404 "User not found")
    | some user =>
        match serialize_prisma_row user with
        | .error e => .error e
        | .ok r => .ok r
  match inner with
  | .error e => .error (.httpExc 400 e.pyStr)
  | .ok r => .ok r

/-- src/app/user/user.py lines 66-78, `get_users`: fetch every row and
serialize the list; with any rows present `list_serial` raises its
`TypeError` on the first row, caught into `HTTPException(400, str(e))`,
so only the empty listing succeeds. -/
def get_users (st : DBState) : Except Exc (List Response) :=
  match list_serial_prisma st.rows with
  | .error e => .error (.httpExc 400 e.pyStr)
  | .ok rs => .ok rs

/-- Replace the first row whose `uid` matches (the row `prisma.user.update`
addresses through its unique `where` clause). -/
def replaceFirst (rows : List UserRecord) (user_id : String)
    (u' : UserRecord) : List UserRecord :=
  match rows with
  | [] => []
  | r :: rs =>
      if r.uid = user_id then u' :: rs else r :: replaceFirst rs user_id u'

/-- Remove the first row whose `uid` matches (the row `prisma.user.delete`
addresses through its unique `where` clause). -/
def removeFirst (rows : List UserRecord) (user_id : String) :
    List UserRecord :=
  match rows with
  | [] => []
  | r :: rs => if r.uid = user_id then rs else r :: removeFirst rs user_id

/-- src/app/user/user.py lines 104-123, `update_user`: `prisma.user.update`
writes only `first_name` and `email` from the body. On a missing row Prisma
raises its record-not-found error, caught into `HTTPException(400,
str(e))`, leaving the state unchanged. On a found row the write commits
(no transaction wraps it), and only then `individual_serial(updated_user)`
raises its `TypeError` on the Prisma row, so the handler returns a 400
while the updated state persists — the result is returned alongside the
resulting database state. -/
def update_user (st : DBState) (user_id : String) (user_data : UserModel) :
    Except Exc Response × DBState :=
  match find_unique st user_id with
  | none => (.error (.httpExc 400 Exc.recordNotFound.pyStr), st)
  | some u =>
      let u' := { u with first_name := user_data.first_name,
                         email := user_data.email }
      let st' : DBState := ⟨st.nextId, replaceFirst st.rows user_id u'⟩
      match serialize_prisma_row u' with
      | .error e => (.error (.httpExc 400 e.pyStr), st')
      | .ok r => (.ok r, st')

/-- src/app/user/user.py lines 127-151, `delete_user`: delete the local row
first; then request deletion of the external identity, whose failure
(modelled by the collaborator flag `extFails`) is swallowed by the inner
`except` clause — the success message is returned either way, with no
rollback. A missing row makes `prisma.user.delete` raise record-not-found,
caught into `HTTPException(400, str(e))`. -/
def delete_user (extFails : Bool) (st : DBState) (user_id : String) :
    Except Exc (String × DBState) :=
  match find_unique st user_id with
  | none => .error (.httpExc 400 Exc.recordNotFound.pyStr)
  | some deleted_user =>
      let st' : DBState := ⟨st.nextId, removeFirst st.rows user_id⟩
      match extFails with
      | true => .ok ("User " ++ deleted_user.uid ++ " has been deleted", st')
      | false => .ok ("User " ++ deleted_user.uid ++ " has been deleted", st')

/-- Modelled from the spec: `get_user_by_email` is imported by
src/app/auth/auth.py from app.user.user but absent from
src/app/user/user.py. Per §4.1 the reconciliation path "looks up an
existing local User by email", returning it when found. -/
def get_user_by_email (st : DBState) (email : String) : Option UserRecord :=
  st.rows.find? (fun r => r.email = email)

/-- The external-identity descriptor handed to `create_oauth_user`: the
provider-assigned id, the email, and the free-form `user_metadata`
mapping. -/
structure OAuthUserData where
  id : String
  email : String
  user_metadata : List (String × String)
deriving DecidableEq, Repr

/-- Helper for `pySplit`: walk the characters, accumulating the current
token (reversed); whitespace finishes a token, and empty tokens are never
emitted. -/
def pySplitGo : List Char → List Char → List String
  | [], acc => if acc.isEmpty then [] else [String.mk acc.reverse]
  | c :: cs, acc =>
      if c.isWhitespace then
        if acc.isEmpty then pySplitGo cs []
        else String.mk acc.reverse :: pySplitGo cs []
      else pySplitGo cs (c :: acc)

/-- Python `str.split()` with no argument: split on runs of whitespace,
producing no empty tokens. -/
def pySplit (s : String) : List String :=
  pySplitGo s.toList []

/-- Python `dict.get(key, "")`. -/
def dictGet (md : List (String × String)) (k : String) : String :=
  match md.lookup k with
  | some v => v
  | none => ""

/-- Python `list[0]`: the head, or an `IndexError` on an empty list. -/
def pyHead : List String → Except Exc String
  | [] => .error .indexError
  | t :: _ => .ok t

/-- The name-derivation block of `create_oauth_user` (src/app/auth/auth.py
lines 38-50), faithful to the source: `full_name.split()[0] if full_name
else ""`; if still empty, `user_metadata.get("name", "").split()[0]` — an
unguarded `[0]` that raises `IndexError` when the "name" field is absent or
empty; if still empty, `given_name` verbatim; if still empty, the
"Joe Schmo" fallback. -/
def deriveFirstName (md : List (String × String)) : Except Exc String := do
  let full_name := dictGet md "full_name"
  let fn0 ← if full_name ≠ "" then pyHead (pySplit full_name) else pure ""
  let fn1 ← if fn0 = "" then pyHead (pySplit (dictGet md "name")) else pure fn0
  let fn2 := if fn1 = "" then dictGet md "given_name" else fn1
  return if fn2 = "" then "Joe Schmo" else fn2

/-- What `create_oauth_user` returns on success: on the found path the
already-existing row, on the other path the response dict built by
`create_user`. -/
inductive OAuthResult where
  | existing (u : UserRecord)
  | created (resp : Response)
deriving DecidableEq, Repr

/-- src/app/auth/auth.py lines 31-58, `create_oauth_user`: look up by
email and return the existing row unchanged when found; otherwise derive a
first name from the metadata and create a new row through `create_user`.
Any exception escaping the `try` block — `IndexError` from the derivation
or the `HTTPException` raised by `create_user` — is rewrapped as
`HTTPException(400, "Failed to create user: " + str(e))`. -/
def create_oauth_user (st : DBState) (user_data : OAuthUserData) :
    Except Exc (OAuthResult × DBState) :=
  let inner : Except Exc (OAuthResult × DBState) :=
    match get_user_by_email st user_data.email with
    | some existing_user => .ok (.existing existing_user, st)
    | none =>
        match deriveFirstName user_data.user_metadata with
        | .error e => .error e
        | .ok first_name =>
            match create_user st user_data.id user_data.email first_name with
            | .error e => .error e
            | .ok (new_user, st') => .ok (.created new_user, st')
  match inner with
  | .error e => .error (.httpExc 400 ("Failed to create user: " ++ e.pyStr))
  | .ok r => .ok r

/-- src/app/auth/auth.py lines 177-190, `get_current_user`: resolve the
bearer token through the identity provider (an opaque collaborator, passed
as a function); any resolution failure is caught and becomes
`HTTPException(401, "Invalid authentication credentials")`. -/
def get_current_user {α : Type} (resolve : String → Except String α)
    (token : String) : Except Exc α :=
  match resolve token with
  | .ok user => .ok user
  | .error _ => .error (.httpExc 401 "Invalid authentication credentials")

/-! ### Helper lemmas about the list operations backing the database model -/

theorem find_append_of_none {α : Type} (p : α → Bool) (l₁ l₂ : List α)
    (h : l₁.find? p = none) : (l₁ ++ l₂).find? p = l₂.find? p := by
  induction l₁ with
  | nil => rfl
  | cons a l ih =>
      cases hpa : p a with
      | true =>
          rw [List.find?_cons_of_pos _ hpa] at h
          cases h
      | false =>
          rw [List.find?_cons_of_neg _ (by simp [hpa])] at h
          rw [List.cons_append, List.find?_cons_of_neg _ (by simp [hpa])]
          exact ih h

theorem length_replaceFirst (rows : List UserRecord) (user_id : String)
    (u' : UserRecord) : (replaceFirst rows user_id u').length = rows.length := by
  induction rows with
  | nil => rfl
  | cons r rs ih =>
      by_cases hr : r.uid = user_id
      · simp [replaceFirst, hr]
      · simp [replaceFirst, hr, ih]

theorem find_replaceFirst (rows : List UserRecord) (user_id : String)
    (u' : UserRecord) (hu' : u'.uid = user_id) (u : UserRecord)
    (h : rows.find? (fun r => r.uid = user_id) = some u) :
    (replaceFirst rows user_id u').find? (fun r => r.uid = user_id) = some u' := by
  induction rows with
  | nil => cases h
  | cons r rs ih =>
      by_cases hr : r.uid = user_id
      · simp only [replaceFirst, if_pos hr]
        exact List.find?_cons_of_pos _ (by simp [hu'])
      · simp only [replaceFirst, if_neg hr]
        rw [List.find?_cons_of_neg _ (by simp [hr])] at h
        rw [List.find?_cons_of_neg _ (by simp [hr])]
        exact ih h

theorem length_removeFirst (rows : List UserRecord) (user_id : String)
    (u : UserRecord) (h : rows.find? (fun r => r.uid = user_id) = some u) :
    (removeFirst rows user_id).length + 1 = rows.length := by
  induction rows with
  | nil => cases h
  | cons r rs ih =>
      by_cases hr : r.uid = user_id
      · simp [removeFirst, hr]
      · simp only [removeFirst, if_neg hr, List.length_cons]
        rw [List.find?_cons_of_neg _ (by simp [hr])] at h
        rw [ih h]

theorem find_removeFirst_none (rows : List UserRecord) (user_id : String)
    (h : rows.countP (fun r => r.uid = user_id) ≤ 1) :
    (removeFirst rows user_id).find? (fun r => r.uid = user_id) = none := by
  induction rows with
  | nil => rfl
  | cons r rs ih =>
      by_cases hr : r.uid = user_id
      · simp only [removeFirst, if_pos hr]
        rw [List.countP_cons_of_pos _ _ (by simp [hr])] at h
        have hz : rs.countP (fun r => r.uid = user_id) = 0 := by omega
        exact List.find?_eq_none.mpr fun x hx =>
          (List.countP_eq_zero.mp hz) x hx
      · simp only [removeFirst, if_neg hr]
        rw [List.countP_cons_of_neg _ _ (by simp [hr])] at h
        rw [List.find?_cons_of_neg _ (by simp [hr])]
        exact ih h

/-! ### Claim theorems -/

/-- C2: the claimed name-derivation priority only holds on its first two
branches. `deriveFirstName` (the block at src/app/auth/auth.py lines 38-50)
takes the first token of full_name, else the first token of name; but when
both are absent or empty the unguarded `[0]` raises IndexError, so metadata
holding only given_name does not yield that value and empty metadata does
not yield the "Joe Schmo" placeholder — both raise instead, contradicting
the claim's last two branches while the code's own comments state the
claimed fallback intent. -/
theorem C2_name_derivation_eval :
    deriveFirstName [("full_name", "Ada Lovelace")] = .ok "Ada" ∧
    deriveFirstName [("name", "Grace Hopper")] = .ok "Grace" ∧
    deriveFirstName [("given_name", "Linus")] = .error .indexError ∧
    deriveFirstName [] = .error .indexError :=
  ⟨rfl, rfl, rfl, rfl⟩

/-- C3: contrary to the claim, a missing record never surfaces as 404. In
`get_user` the inner HTTPException(404) is caught by the handler's own
`except Exception` clause and rewrapped as status 400 with detail
"404: User not found"; in `update_user` and `delete_user` the Prisma
record-not-found error is likewise caught into status 400. Evaluated here
on the empty database at external id "X". -/
theorem C3_missing_record_maps_to_400 :
    get_user ⟨1, []⟩ "X" = .error (.httpExc 400 "404: User not found") ∧
    update_user ⟨1, []⟩ "X" ⟨"X", "New", "new@x.com", true⟩ =
      (.error (.httpExc 400 Exc.recordNotFound.pyStr), ⟨1, []⟩) ∧
    delete_user false ⟨1, []⟩ "X" =
      .error (.httpExc 400 Exc.recordNotFound.pyStr) :=
  ⟨rfl, rfl, rfl⟩

/-- C7: whenever the identity provider fails to resolve the bearer token,
`get_current_user` returns HTTPException with status 401 (in particular not
404 and not an unhandled exception), regardless of the provider's error
message. -/
theorem C7_invalid_token_yields_401 :
    ∀ (α : Type) (resolve : String → Except String α) (token msg : String),
      resolve token = .error msg →
      get_current_user resolve token =
        .error (.httpExc 401 "Invalid authentication credentials") := by
  intro α resolve token msg h
  unfold get_current_user
  rw [h]

/-- Witness for C7 at a concrete always-failing resolver and token. -/
theorem C7_invalid_token_yields_401_witness :
    get_current_user (fun _ => (.error "invalid token" : Except String Unit))
      "tok" = .error (.httpExc 401 "Invalid authentication credentials") :=
  C7_invalid_token_yields_401 Unit (fun _ => .error "invalid token") "tok"
    "invalid token" rfl

/-- C9 counterexample: the user object returned by `create_user` — the one
embedded in the signup and OAuth-callback responses — does not contain the
key "is_admin" at all: at a concrete input its key list is
[id, uid, email, first_name], refuting the claim that every user object
returned by the public API has exactly the shape
(id, uid, first_name, email, is_admin). -/
theorem C9_create_response_lacks_is_admin :
    create_user ⟨1, []⟩ "X" "ada@example.com" "Ada" =
      .ok ([("id", .s "1"), ("uid", .s "X"), ("email", .s "ada@example.com"),
            ("first_name", .s "Ada")],
           ⟨2, [⟨1, "X", "ada@example.com", "Ada", false⟩]⟩) ∧
    ([("id", Val.s "1"), ("uid", Val.s "X"), ("email", Val.s "ada@example.com"),
      ("first_name", Val.s "Ada")] : Response).lookup "is_admin" = none :=
  ⟨rfl, rfl⟩

/-- C9 amended: user objects serialized through `individual_serial` (get,
list, update) have exactly the keys id, uid, first_name, email, is_admin,
with id the stringified internal identifier; but the user objects built by
`create_user` (returned by signup and by the OAuth callback's creation
path) have exactly the keys id, uid, email, first_name, without
is_admin. -/
theorem C9_response_shape :
    (∀ u : UserRecord,
      (individual_serial u).map Prod.fst =
        ["id", "uid", "first_name", "email", "is_admin"] ∧
      (individual_serial u).lookup "id" = some (.s (toString u.id))) ∧
    (∀ (st : DBState) (auth_id email first_name : String) (resp : Response)
        (st' : DBState),
      create_user st auth_id email first_name = .ok (resp, st') →
      resp.map Prod.fst = ["id", "uid", "email", "first_name"]) := by
  constructor
  · intro u
    exact ⟨rfl, rfl⟩
  · intro st a e f resp st' h
    unfold create_user at h
    cases hdb : dbCreate st a e f with
    | error ex => rw [hdb] at h; cases h
    | ok v =>
        rw [hdb] at h
        obtain ⟨nu, st₂⟩ := v
        simp only [Except.ok.injEq, Prod.mk.injEq] at h
        obtain ⟨h1, _⟩ := h
        subst h1
        rfl

/-- Witness for C9's amended statement at a concrete record and a concrete
successful create. -/
theorem C9_response_shape_witness :
    ((individual_serial ⟨1, "X", "a@x.com", "Ada", false⟩).map Prod.fst =
        ["id", "uid", "first_name", "email", "is_admin"] ∧
      (individual_serial (⟨1, "X", "a@x.com", "Ada", false⟩ : UserRecord)).lookup
        "id" = some (.s "1")) ∧
    ([("id", Val.s "1"), ("uid", Val.s "X"), ("email", Val.s "a@x.com"),
      ("first_name", Val.s "Ada")] : Response).map Prod.fst =
      ["id", "uid", "email", "first_name"] :=
  ⟨C9_response_shape.1 ⟨1, "X", "a@x.com", "Ada", false⟩,
   C9_response_shape.2 ⟨1, []⟩ "X" "a@x.com" "Ada"
     [("id", Val.s "1"), ("uid", Val.s "X"), ("email", Val.s "a@x.com"),
      ("first_name", Val.s "Ada")]
     ⟨2, [⟨1, "X", "a@x.com", "Ada", false⟩]⟩ rfl⟩

/-- C10: `list_serial` maps `individual_serial` over its input: the output
has the same length, its i-th element is `individual_serial` of the i-th
input row, and the empty list serializes to the empty list. -/
theorem C10_list_serial_pointwise :
    ∀ users : List UserRecord,
      (list_serial users).length = users.length ∧
      (∀ i : Nat, (list_serial users)[i]? = users[i]?.map individual_serial) ∧
      list_serial ([] : List UserRecord) = [] := by
  intro users
  refine ⟨?_, ?_, rfl⟩
  · simp [list_serial]
  · intro i
    simp [list_serial, List.getElem?_map]

/-- C4: for any existing record and any PUT body, the committed write
replaces only first_name and email: the stored record keeps its prior
is_admin, uid and internal id — even when the body supplies different
values for uid and is_admin — and the row count is unchanged. The HTTP
result itself is the 400 from the post-write serialization failure (see
C8), stated here un-collapsed. -/
theorem C4_update_only_name_email :
    ∀ (st : DBState) (user_id : String) (body : UserModel) (u : UserRecord),
      find_unique st user_id = some u →
      ∃ st' : DBState,
        update_user st user_id body =
          (.error (.httpExc 400 Exc.typeError.pyStr), st') ∧
        ∃ u' : UserRecord,
          find_unique st' user_id = some u' ∧
          u'.is_admin = u.is_admin ∧ u'.uid = u.uid ∧ u'.id = u.id ∧
          u'.first_name = body.first_name ∧ u'.email = body.email ∧
          st'.rows.length = st.rows.length := by
  intro st user_id body u h
  have huid : u.uid = user_id := by
    simpa using List.find?_some h
  refine ⟨⟨st.nextId, replaceFirst st.rows user_id
            { u with first_name := body.first_name, email := body.email }⟩,
          ?_, ?_⟩
  · unfold update_user
    rw [h]
    rfl
  · refine ⟨{ u with first_name := body.first_name, email := body.email },
            ?_, rfl, rfl, rfl, rfl, rfl, ?_⟩
    · exact find_replaceFirst st.rows user_id _ huid u h
    · exact length_replaceFirst st.rows user_id _

/-- Witness for C4: a record with is_admin = true and uid "X" is updated by
a body that supplies is_admin = false and uid "Y"; only name and email
change in the stored row. -/
theorem C4_update_only_name_email_witness :
    ∃ st' : DBState,
      update_user ⟨2, [⟨1, "X", "old@x.com", "Old", true⟩]⟩ "X"
          ⟨"Y", "New", "new@x.com", false⟩ =
        (.error (.httpExc 400 Exc.typeError.pyStr), st') ∧
      ∃ u' : UserRecord,
        find_unique st' "X" = some u' ∧
        u'.is_admin = true ∧ u'.uid = "X" ∧ u'.id = 1 ∧
        u'.first_name = "New" ∧ u'.email = "new@x.com" ∧
        st'.rows.length = 1 :=
  C4_update_only_name_email ⟨2, [⟨1, "X", "old@x.com", "Old", true⟩]⟩ "X"
    ⟨"Y", "New", "new@x.com", false⟩ ⟨1, "X", "old@x.com", "Old", true⟩ rfl

/-- C5: for any existing record (uids unique), `delete_user` removes the
local row and returns the success message whether or not the best-effort
external-identity deletion fails; afterwards the row is gone, a `get` on
the same external id fails with the wrapped not-found error, and there is
no rollback. -/
theorem C5_delete_local_best_effort_external :
    ∀ (extFails : Bool) (st : DBState) (user_id : String) (u : UserRecord),
      find_unique st user_id = some u →
      st.rows.countP (fun r => r.uid = user_id) ≤ 1 →
      ∃ st' : DBState,
        delete_user extFails st user_id =
          .ok ("User " ++ u.uid ++ " has been deleted", st') ∧
        find_unique st' user_id = none ∧
        get_user st' user_id = .error (.httpExc 400 "404: User not found") ∧
        st'.rows.length + 1 = st.rows.length := by
  intro extFails st user_id u h hcount
  refine ⟨⟨st.nextId, removeFirst st.rows user_id⟩, ?_, ?_, ?_, ?_⟩
  · unfold delete_user
    rw [h]
    cases extFails <;> rfl
  · exact find_removeFirst_none st.rows user_id hcount
  · unfold get_user
    rw [show find_unique ⟨st.nextId, removeFirst st.rows user_id⟩ user_id
          = none from find_removeFirst_none st.rows user_id hcount]
    rfl
  · exact length_removeFirst st.rows user_id u h

/-- Witness for C5 with a failing external deletion on a one-record
database. -/
theorem C5_delete_local_best_effort_external_witness :
    ∃ st' : DBState,
      delete_user true ⟨2, [⟨1, "X", "a@x.com", "Ada", false⟩]⟩ "X" =
        .ok ("User X has been deleted", st') ∧
      find_unique st' "X" = none ∧
      get_user st' "X" = .error (.httpExc 400 "404: User not found") ∧
      st'.rows.length + 1 = 1 :=
  C5_delete_local_best_effort_external true
    ⟨2, [⟨1, "X", "a@x.com", "Ada", false⟩]⟩ "X"
    ⟨1, "X", "a@x.com", "Ada", false⟩ rfl (by decide)

/-- C6: `create_user` inserts a record whose is_admin is false (appending
it and advancing the counter) when neither the external id nor the email is
taken; and whenever some existing record already holds the same email, it
fails with the unique-constraint conflict wrapped as a client error
(HTTPException 400) rather than succeeding or overwriting. -/
theorem C6_create_default_admin_and_email_conflict :
    (∀ (st : DBState) (auth_id email first_name : String),
      (∀ r ∈ st.rows, r.uid ≠ auth_id ∧ r.email ≠ email) →
      create_user st auth_id email first_name =
        .ok ([("id", .s (toString st.nextId)), ("uid", .s auth_id),
              ("email", .s email), ("first_name", .s first_name)],
             ⟨st.nextId + 1,
              st.rows ++ [⟨st.nextId, auth_id, email, first_name, false⟩]⟩)) ∧
    (∀ (st : DBState) (auth_id email first_name : String) (u : UserRecord),
      u ∈ st.rows → u.email = email →
      create_user st auth_id email first_name =
        .error (.httpExc 400 Exc.uniqueViolation.pyStr)) := by
  constructor
  · intro st a e f h
    have hany : st.rows.any (fun r => r.uid = a || r.email = e) = false := by
      rw [List.any_eq_false]
      intro r hr
      simp only [Bool.or_eq_true, decide_eq_true_eq, not_or]
      exact ⟨(h r hr).1, (h r hr).2⟩
    unfold create_user dbCreate
    rw [hany]
    rfl
  · intro st a e f u hmem hemail
    have hany : st.rows.any (fun r => r.uid = a || r.email = e) = true :=
      List.any_eq_true.mpr ⟨u, hmem, by simp [hemail]⟩
    unfold create_user dbCreate
    rw [hany]
    rfl

/-- Witness for C6: creating on the empty database succeeds with
is_admin = false; creating again with the same email and a different
external id fails with the 400-wrapped conflict. -/
theorem C6_create_default_admin_and_email_conflict_witness :
    create_user ⟨1, []⟩ "X" "a@x.com" "Ada" =
      .ok ([("id", .s "1"), ("uid", .s "X"), ("email", .s "a@x.com"),
            ("first_name", .s "Ada")],
           ⟨2, [⟨1, "X", "a@x.com", "Ada", false⟩]⟩) ∧
    create_user ⟨2, [⟨1, "X", "a@x.com", "Ada", false⟩]⟩ "Y" "a@x.com" "Bob" =
      .error (.httpExc 400 Exc.uniqueViolation.pyStr) :=
  ⟨C6_create_default_admin_and_email_conflict.1 ⟨1, []⟩ "X" "a@x.com" "Ada"
     (by simp),
   C6_create_default_admin_and_email_conflict.2
     ⟨2, [⟨1, "X", "a@x.com", "Ada", false⟩]⟩ "Y" "a@x.com" "Bob"
     ⟨1, "X", "a@x.com", "Ada", false⟩ (by simp) rfl⟩

/-- C8: contrary to the claim, `get("X")` after `create(external_id="X")`
does not succeed. The lookup does key on the external id — `find_unique`
on the post-create state finds the inserted row with uid "X" — but
`individual_serial(user)` then raises `TypeError` on the Prisma row (no
subscriptable `"_id"`/`"_uid"` keys), so `get_user` returns the handler's
400 wrapping of that exception instead of the record. Evaluated at the
state left by a concrete successful create. -/
theorem C8_get_after_create_returns_400 :
    create_user ⟨1, []⟩ "X" "a@x.com" "Ada" =
      .ok ([("id", .s "1"), ("uid", .s "X"), ("email", .s "a@x.com"),
            ("first_name", .s "Ada")],
           ⟨2, [⟨1, "X", "a@x.com", "Ada", false⟩]⟩) ∧
    find_unique ⟨2, [⟨1, "X", "a@x.com", "Ada", false⟩]⟩ "X" =
      some ⟨1, "X", "a@x.com", "Ada", false⟩ ∧
    get_user ⟨2, [⟨1, "X", "a@x.com", "Ada", false⟩]⟩ "X" =
      .error (.httpExc 400 Exc.typeError.pyStr) :=
  ⟨rfl, rfl, rfl⟩

/-- C1: reconciliation is idempotent. First, for any state already holding
a record with the descriptor's email, `create_oauth_user` returns that
record unchanged and leaves the state untouched. Second, when no record
with the email exists and a first call succeeds, a second call on the
resulting state returns exactly the record the first call created, changes
nothing, and the state holds exactly one record with that email. -/
theorem C1_oauth_reconcile_idempotent :
    (∀ (st : DBState) (ud : OAuthUserData) (u : UserRecord),
      get_user_by_email st ud.email = some u →
      create_oauth_user st ud = .ok (.existing u, st)) ∧
    (∀ (st : DBState) (ud : OAuthUserData) (r₁ : OAuthResult) (st₁ : DBState),
      get_user_by_email st ud.email = none →
      create_oauth_user st ud = .ok (r₁, st₁) →
      ∃ u : UserRecord,
        get_user_by_email st₁ ud.email = some u ∧
        create_oauth_user st₁ ud = .ok (.existing u, st₁) ∧
        st₁.rows.countP (fun r => r.email = ud.email) = 1) := by
  constructor
  · intro st ud u h
    unfold create_oauth_user
    rw [h]
  · intro st ud r₁ st₁ hnone hcall
    unfold create_oauth_user at hcall
    rw [hnone] at hcall
    cases hd : deriveFirstName ud.user_metadata with
    | error ex => rw [hd] at hcall; cases hcall
    | ok fn =>
        rw [hd] at hcall
        dsimp only at hcall
        cases hcu : create_user st ud.id ud.email fn with
        | error ex => rw [hcu] at hcall; cases hcall
        | ok v =>
            rw [hcu] at hcall
            obtain ⟨resp₂, st₂⟩ := v
            simp only [Except.ok.injEq, Prod.mk.injEq] at hcall
            obtain ⟨hr₁, hst₁⟩ := hcall
            subst hst₁
            unfold create_user at hcu
            cases hdb : dbCreate st ud.id ud.email fn with
            | error ex => rw [hdb] at hcu; cases hcu
            | ok w =>
                rw [hdb] at hcu
                obtain ⟨nu, st₃⟩ := w
                simp only [Except.ok.injEq, Prod.mk.injEq] at hcu
                obtain ⟨hresp₂, hst₂⟩ := hcu
                subst hst₂
                unfold dbCreate at hdb
                by_cases hcond : st.rows.any
                    (fun r => r.uid = ud.id || r.email = ud.email) = true
                · rw [if_pos hcond] at hdb; cases hdb
                · rw [if_neg hcond] at hdb
                  simp only [Except.ok.injEq, Prod.mk.injEq] at hdb
                  obtain ⟨hnu, hst₃⟩ := hdb
                  subst hnu
                  subst hst₃
                  have hfind : st.rows.find?
                      (fun r => r.email = ud.email) = none := by
                    unfold get_user_by_email at hnone
                    exact hnone
                  have hfu : get_user_by_email
                      ⟨st.nextId + 1,
                       st.rows ++ [⟨st.nextId, ud.id, ud.email, fn, false⟩]⟩
                      ud.email =
                      some ⟨st.nextId, ud.id, ud.email, fn, false⟩ := by
                    unfold get_user_by_email
                    rw [find_append_of_none _ _ _ hfind]
                    exact List.find?_cons_of_pos _ (by simp)
                  refine ⟨⟨st.nextId, ud.id, ud.email, fn, false⟩, hfu, ?_, ?_⟩
                  · unfold create_oauth_user
                    rw [hfu]
                  · rw [List.countP_append]
                    have h0 : st.rows.countP
                        (fun r => r.email = ud.email) = 0 :=
                      List.countP_eq_zero.mpr (List.find?_eq_none.mp hfind)
                    rw [h0]
                    simp [List.countP_cons]

/-- Witness for C1: a first OAuth callback on the empty database creates
Ada's record; the second call returns it unchanged and the database holds
exactly one record with her email. -/
theorem C1_oauth_reconcile_idempotent_witness :
    ∃ u : UserRecord,
      get_user_by_email ⟨2, [⟨1, "X", "ada@example.com", "Ada", false⟩]⟩
          "ada@example.com" = some u ∧
      create_oauth_user ⟨2, [⟨1, "X", "ada@example.com", "Ada", false⟩]⟩
          ⟨"X", "ada@example.com", [("full_name", "Ada Lovelace")]⟩ =
        .ok (.existing u, ⟨2, [⟨1, "X", "ada@example.com", "Ada", false⟩]⟩) ∧
      (⟨2, [⟨1, "X", "ada@example.com", "Ada", false⟩]⟩ : DBState).rows.countP
        (fun r => r.email = "ada@example.com") = 1 :=
  C1_oauth_reconcile_idempotent.2 ⟨1, []⟩
    ⟨"X", "ada@example.com", [("full_name", "Ada Lovelace")]⟩
    (.created [("id", .s "1"), ("uid", .s "X"),
               ("email", .s "ada@example.com"), ("first_name", .s "Ada")])
    ⟨2, [⟨1, "X", "ada@example.com", "Ada", false⟩]⟩ rfl rfl
